import Mathlib

/-!
Verification of the pipecat observability plugin core
(`protobuf_decoder.py`, `observability_config.py`, `pipeline_observer.py`)
against its natural-language specification.

The Python code is shallowly embedded: Python dicts keyed by strings become
association lists with Python's read/update semantics, wall-clock times and
millisecond latencies become rationals, byte strings become `List Nat`, and
calls into external libraries (the protobuf parser, `json.loads`/`json.dumps`,
the loguru sink, the frame serializer, float formatting) become explicit
function parameters gathered in an `Env` record.  A Python call that may raise
is modelled in `Except PyErr`; a `try/except` becomes a `match` on that result.
-/

/-- A raised Python exception, abstracted to the classes the embedded code
distinguishes in its `except` clauses; `otherErr` stands for every remaining
exception class (e.g. `RecursionError`, `RuntimeError`). -/
inductive PyErr where
  | typeError
  | valueError
  | jsonDecodeError
  | otherErr (msg : String)
deriving DecidableEq

/-- Python `d.get(k)` on a string-keyed dict modelled as an association list:
the value at the first occurrence of the key, if any. -/
def pyGet {α : Type} (d : List (String × α)) (k : String) : Option α :=
  match d with
  | [] => none
  | (k', v) :: t => if k' = k then some v else pyGet t k

/-- Python `d.get(k, dflt)`. -/
def pyGetD {α : Type} (d : List (String × α)) (k : String) (dflt : α) : α :=
  (pyGet d k).getD dflt

/-- Python `d[k] = v`: update the first occurrence of the key in place,
otherwise append the new key at the end (Python dicts preserve insertion
order). -/
def pySet {α : Type} (d : List (String × α)) (k : String) (v : α) : List (String × α) :=
  match d with
  | [] => [(k, v)]
  | (k', v') :: t => if k' = k then (k', v) :: t else (k', v') :: pySet t k v

/-- Python `sum(d.values())` for an int-valued dict. -/
def sumValues (d : List (String × Nat)) : Nat :=
  (d.map Prod.snd).sum

theorem pyGet_pySet_self {α : Type} (d : List (String × α)) (k : String) (v : α) :
    pyGet (pySet d k v) k = some v := by
  induction d with
  | nil => simp [pySet, pyGet]
  | cons hd t ih =>
    obtain ⟨k', v'⟩ := hd
    by_cases h : k' = k
    · simp [pySet, pyGet, h]
    · simp [pySet, pyGet, h, ih]

theorem pyGet_pySet_ne {α : Type} (d : List (String × α)) (k k' : String) (v : α)
    (h : k' ≠ k) : pyGet (pySet d k v) k' = pyGet d k' := by
  have hne : ¬k = k' := fun hh => h hh.symm
  induction d with
  | nil => simp [pySet, pyGet, hne]
  | cons hd t ih =>
    obtain ⟨k0, v0⟩ := hd
    by_cases h0 : k0 = k
    · subst h0
      simp [pySet, pyGet, hne]
    · simp [pySet, pyGet, h0, ih]

theorem pyGetD_pySet_ne {α : Type} (d : List (String × α)) (k k' : String) (v dflt : α)
    (h : k' ≠ k) : pyGetD (pySet d k v) k' dflt = pyGetD d k' dflt := by
  simp [pyGetD, pyGet_pySet_ne d k k' v h]

/-- Incrementing one key of an int-valued dict by `n` (reading the old value
with default 0, as the source does) raises `sum(d.values())` by exactly `n`. -/
theorem sumValues_pySet_add (d : List (String × Nat)) (k : String) (n : Nat) :
    sumValues (pySet d k (pyGetD d k 0 + n)) = sumValues d + n := by
  induction d with
  | nil => simp [pySet, pyGetD, pyGet, sumValues]
  | cons hd t ih =>
    obtain ⟨k0, v0⟩ := hd
    by_cases h0 : k0 = k
    · simp [pySet, pyGetD, pyGet, h0, sumValues]
      omega
    · simp only [pySet, pyGetD, pyGet, h0, if_false, if_neg h0, sumValues, List.map_cons,
        List.sum_cons] at ih ⊢
      omega

/-! ## Wire decoder (`protobuf_decoder.py`) -/

/-- A JSON value, the possible result of `json.loads`. -/
inductive JsonVal where
  | jnull
  | jbool (b : Bool)
  | jnum (q : ℚ)
  | jstr (s : String)
  | jarr (elems : List JsonVal)
  | jobj (fields : List (String × JsonVal))

/-- The `text` submessage of the external `Frame` protobuf. -/
structure TextProto where
  text : String

/-- The `transcription` submessage. -/
structure TranscriptionProto where
  text : String
  user_id : String

/-- The `audio` submessage (`audio` is the raw byte payload). -/
structure AudioProto where
  audio : List Nat
  sample_rate : Nat

/-- The `message` submessage (`data` is a string payload). -/
structure MessageProto where
  data : String

/-- A parsed `Frame` protobuf.  Each optional field models `HasField`; the wire
format intends at most one to be set, but the decoder checks them in a fixed
priority order, so nothing here enforces exclusivity. -/
structure FrameProto where
  text : Option TextProto := none
  transcription : Option TranscriptionProto := none
  audio : Option AudioProto := none
  message : Option MessageProto := none

/-- The `data` value embedded in a decoded `message` record: the JSON parse of
the raw string when `json.loads` succeeds, otherwise the raw string itself. -/
inductive MsgData where
  | parsed (j : JsonVal)
  | raw (s : String)

/-- The dict returned by `decode_protobuf`: a `type` tag plus whichever of the
optional keys the source sets for that tag (absent keys are `none`). -/
structure Decoded where
  type : String
  text : Option String := none
  user_id : Option String := none
  size_bytes : Option Nat := none
  sample_rate : Option Nat := none
  data : Option MsgData := none

/-- `decode_protobuf(data)` from `protobuf_decoder.py`.

`parseFromString` models the external `FrameProto().ParseFromString`, which may
raise on malformed bytes; the source wraps it in `try/except Exception` and
returns an `unknown` dict on failure.  `jsonLoads` models `json.loads` on the
`message` string; the source's inner `try/except` catches only
`(json.JSONDecodeError, TypeError)` and falls back to the raw string, so any
other exception `json.loads` raises (e.g. `RecursionError` on deeply nested
JSON) propagates out of the function. -/
def decode_protobuf (parseFromString : List Nat → Except PyErr FrameProto)
    (jsonLoads : String → Except PyErr JsonVal) (data : List Nat) : Except PyErr Decoded :=
  match parseFromString data with
  | Except.error _ => Except.ok { type := "unknown", size_bytes := some data.length }
  | Except.ok proto =>
    match proto.text with
    | some t => Except.ok { type := "text", text := some t.text }
    | none =>
      match proto.transcription with
      | some t =>
        Except.ok { type := "transcription", text := some t.text,
                    user_id := if t.user_id = "" then none else some t.user_id }
      | none =>
        match proto.audio with
        | some a =>
          Except.ok { type := "audio", size_bytes := some a.audio.length,
                      sample_rate := some a.sample_rate }
        | none =>
          match proto.message with
          | some m =>
            match jsonLoads m.data with
            | Except.ok j => Except.ok { type := "message", data := some (MsgData.parsed j) }
            | Except.error e =>
              if e = PyErr.jsonDecodeError ∨ e = PyErr.typeError then
                Except.ok { type := "message", data := some (MsgData.raw m.data) }
              else Except.error e
          | none => Except.ok { type := "empty", size_bytes := some data.length }

/-- One entry of the accumulator's append-only record log:
`{"direction": direction, "size": size, **decoded}`. -/
structure DecodedRecord where
  direction : String
  size : Nat
  decoded : Decoded

/-- The `ProtobufMessageLog` session accumulator. -/
structure ProtobufMessageLog where
  counts : List (String × Nat)
  bytes : List (String × Nat)
  records : List DecodedRecord

/-- `ProtobufMessageLog.__init__`. -/
def ProtobufMessageLog.init : ProtobufMessageLog :=
  { counts := [("downstream", 0), ("upstream", 0)],
    bytes := [("downstream", 0), ("upstream", 0)],
    records := [] }

/-- `ProtobufMessageLog.record(direction, size, decoded)`. -/
def ProtobufMessageLog.record (log : ProtobufMessageLog) (direction : String) (size : Nat)
    (decoded : Decoded) : ProtobufMessageLog :=
  { counts := pySet log.counts direction (pyGetD log.counts direction 0 + 1),
    bytes := pySet log.bytes direction (pyGetD log.bytes direction 0 + size),
    records := log.records ++ [{ direction := direction, size := size, decoded := decoded }] }

/-- The dict returned by `ProtobufMessageLog.get_stats`. -/
structure LogStats where
  downstream_count : Nat
  upstream_count : Nat
  downstream_bytes : Nat
  upstream_bytes : Nat
  total_messages : Nat
deriving DecidableEq

/-- `ProtobufMessageLog.get_stats()`. -/
def ProtobufMessageLog.get_stats (log : ProtobufMessageLog) : LogStats :=
  { downstream_count := pyGetD log.counts "downstream" 0,
    upstream_count := pyGetD log.counts "upstream" 0,
    downstream_bytes := pyGetD log.bytes "downstream" 0,
    upstream_bytes := pyGetD log.bytes "upstream" 0,
    total_messages := sumValues log.counts }

/-- `ProtobufMessageLog.clear()`: reset both direction dicts and empty the
record log (the result coincides with a freshly constructed log). -/
def ProtobufMessageLog.clear (_log : ProtobufMessageLog) : ProtobufMessageLog :=
  { counts := [("downstream", 0), ("upstream", 0)],
    bytes := [("downstream", 0), ("upstream", 0)],
    records := [] }

/-- A call against the accumulator's mutating interface. -/
inductive LogOp where
  | recOp (direction : String) (size : Nat) (decoded : Decoded)
  | clearOp

/-- Apply one accumulator call. -/
def applyLogOp (log : ProtobufMessageLog) : LogOp → ProtobufMessageLog
  | LogOp.recOp d s dec => log.record d s dec
  | LogOp.clearOp => log.clear

/-- Run a sequence of accumulator calls against a fresh accumulator. -/
def runLogOps (ops : List LogOp) : ProtobufMessageLog :=
  ops.foldl applyLogOp ProtobufMessageLog.init

/-- A sample decoded dict, used as a concrete argument in witnesses. -/
def sampleDecoded : Decoded :=
  { type := "text", text := some "hi" }

/-! ## Decoder-side claims (C2, C3, C9, C10) -/

/-- A parser that rejects every payload, modelling `ParseFromString` raising a
`DecodeError` on malformed bytes (e.g. the single byte `0xff`, whose wire type
is invalid). -/
def parseNever : List Nat → Except PyErr FrameProto :=
  fun _ => Except.error PyErr.valueError

/-- A parser that accepts every payload as an empty `Frame` (no field set), as
the real parser does for the empty byte string. -/
def parseEmptyFrame : List Nat → Except PyErr FrameProto :=
  fun _ => Except.ok {}

/-- A `json.loads` model that raises `json.JSONDecodeError` (the caught parse
failure) on every string. -/
def jsonLoadsNone : String → Except PyErr JsonVal :=
  fun _ => Except.error PyErr.jsonDecodeError

/-- Deeply nested JSON: two thousand unclosed brackets, an input on which the
real `json.loads` raises `RecursionError` rather than `JSONDecodeError`. -/
def deepJson : String :=
  String.mk (List.replicate 2000 '[')

/-- A `json.loads` model that raises `RecursionError`, an exception class the
message branch's `except (json.JSONDecodeError, TypeError)` does not catch. -/
def jsonLoadsRecurses : String → Except PyErr JsonVal :=
  fun _ => Except.error (PyErr.otherErr "RecursionError")

/-- A parser that accepts every payload as a message frame whose `data` is the
deeply nested JSON string. -/
def parseDeepMsgFrame : List Nat → Except PyErr FrameProto :=
  fun _ => Except.ok { message := some { data := deepJson } }

/-- C2 counterexample: on a payload the parser rejects, `decode_protobuf`
returns a dict whose `type` is `"unknown"`, not the `"undecodable"` the claim
states; and the function is not raise-free either: on a payload parsing to a
message frame whose inner `json.loads` raises `RecursionError` (as it does on
deeply nested JSON), `decode_protobuf` itself raises, since only
`JSONDecodeError`/`TypeError` are caught. -/
theorem claim_C2_counterexample :
    parseNever [255] = Except.error PyErr.valueError ∧
    decode_protobuf parseNever jsonLoadsNone [255] =
      Except.ok { type := "unknown", text := none, user_id := none, size_bytes := some 1,
                  sample_rate := none, data := none } ∧
    ("unknown" : String) ≠ "undecodable" ∧
    decode_protobuf parseDeepMsgFrame jsonLoadsRecurses [10] =
      Except.error (PyErr.otherErr "RecursionError") :=
  ⟨rfl, rfl, by decide, rfl⟩

/-- C2 (amended): when the payload fails to parse, `decode_protobuf` returns
exactly `{type: "unknown", size_bytes: len(payload)}` (the source tags parse
failures `"unknown"`, not `"undecodable"`); a payload that parses with no
tagged field set (as 0 bytes does) yields the `empty` dict, so 0 bytes or
noise gives a `type` of `"unknown"` or `"empty"`; and the function never
raises except through exactly one path: `json.loads` on a successfully parsed
message frame raising an exception other than `JSONDecodeError`/`TypeError`
(such as `RecursionError` on deeply nested JSON), which propagates uncaught. -/
theorem claim_C2_decode_contained (parse : List Nat → Except PyErr FrameProto)
    (jloads : String → Except PyErr JsonVal) (payload : List Nat) :
    (∀ e, parse payload = Except.error e →
      decode_protobuf parse jloads payload =
        Except.ok { type := "unknown", size_bytes := some payload.length }) ∧
    (∀ pr, parse payload = Except.ok pr → pr.text = none → pr.transcription = none →
      pr.audio = none → pr.message = none →
      decode_protobuf parse jloads payload =
        Except.ok { type := "empty", size_bytes := some payload.length }) ∧
    ((∀ s e, jloads s = Except.error e →
        e = PyErr.jsonDecodeError ∨ e = PyErr.typeError) →
      ∃ d, decode_protobuf parse jloads payload = Except.ok d) ∧
    (∀ e, decode_protobuf parse jloads payload = Except.error e →
      e ≠ PyErr.jsonDecodeError ∧ e ≠ PyErr.typeError ∧
      ∃ pr m, parse payload = Except.ok pr ∧ pr.message = some m ∧
        jloads m.data = Except.error e) := by
  refine ⟨?_, ?_, ?_, ?_⟩
  · intro e he
    unfold decode_protobuf
    rw [he]
  · intro pr hpr h1 h2 h3 h4
    unfold decode_protobuf
    rw [hpr]
    simp [h1, h2, h3, h4]
  · intro hcaught
    unfold decode_protobuf
    cases hp : parse payload with
    | error e => exact ⟨_, rfl⟩
    | ok proto =>
      obtain ⟨ot, otr, oa, om⟩ := proto
      cases ot with
      | some t => exact ⟨_, rfl⟩
      | none =>
        cases otr with
        | some t => exact ⟨_, rfl⟩
        | none =>
          cases oa with
          | some a => exact ⟨_, rfl⟩
          | none =>
            cases om with
            | some m =>
              cases hj : jloads m.data with
              | ok j =>
                exact ⟨{ type := "message", data := some (MsgData.parsed j) }, by simp [hj]⟩
              | error e =>
                have hce := hcaught m.data e hj
                exact ⟨{ type := "message", data := some (MsgData.raw m.data) },
                  by simp [hj, if_pos hce]⟩
            | none => exact ⟨_, rfl⟩
  · intro e he
    unfold decode_protobuf at he
    cases hp : parse payload with
    | error e0 =>
      rw [hp] at he
      simp at he
    | ok proto =>
      obtain ⟨ot, otr, oa, om⟩ := proto
      rw [hp] at he
      cases ot with
      | some t => simp at he
      | none =>
        cases otr with
        | some t => simp at he
        | none =>
          cases oa with
          | some a => simp at he
          | none =>
            cases om with
            | none => simp at he
            | some m =>
              cases hj : jloads m.data with
              | ok j => simp [hj] at he
              | error e1 =>
                simp only [hj] at he
                by_cases hc : e1 = PyErr.jsonDecodeError ∨ e1 = PyErr.typeError
                · rw [if_pos hc] at he
                  simp at he
                · rw [if_neg hc] at he
                  have he2 : e1 = e := by
                    exact (Except.error.injEq _ _).mp he
                  subst he2
                  push_neg at hc
                  exact ⟨hc.1, hc.2, ⟨_, m, rfl, rfl, hj⟩⟩

/-- C2 witness: concrete uses of the amended theorem — an all-rejecting parser
on one byte of noise yields the `unknown` dict, and a parse producing a frame
with no field set (as for 0 bytes) yields the `empty` dict. -/
theorem claim_C2_witness :
    decode_protobuf parseNever jsonLoadsNone [7] =
      Except.ok { type := "unknown", size_bytes := some 1 } ∧
    decode_protobuf parseEmptyFrame jsonLoadsNone [] =
      Except.ok { type := "empty", size_bytes := some 0 } :=
  ⟨(claim_C2_decode_contained parseNever jsonLoadsNone [7]).1 PyErr.valueError rfl,
   (claim_C2_decode_contained parseEmptyFrame jsonLoadsNone []).2.1 {} rfl rfl rfl rfl rfl⟩

/-- C3 counterexample: a single `record` call with direction `"control"` (the
label the observer uses for non-downstream, non-upstream pushes) makes
`total_messages = 1` while `downstream_count + upstream_count = 0`. -/
theorem claim_C3_counterexample :
    ¬((runLogOps [LogOp.recOp "control" 5 sampleDecoded]).get_stats.total_messages =
      (runLogOps [LogOp.recOp "control" 5 sampleDecoded]).get_stats.downstream_count +
        (runLogOps [LogOp.recOp "control" 5 sampleDecoded]).get_stats.upstream_count) := by
  decide

/-- The direction argument of a `record` call is one of the two documented
directions. -/
def dirOK : LogOp → Prop
  | LogOp.recOp d _ _ => d = "downstream" ∨ d = "upstream"
  | LogOp.clearOp => True

/-- The counts dict holds exactly the two documented direction keys. -/
def twoDirCounts (log : ProtobufMessageLog) : Prop :=
  ∃ a b, log.counts = [("downstream", a), ("upstream", b)]

/-- C3 (amended): for every sequence of `record`/`clear` calls in which every
`record` direction is `"downstream"` or `"upstream"` (the accumulator's
documented contract), `get_stats` satisfies
`total_messages = downstream_count + upstream_count`. -/
theorem claim_C3_total_eq_down_add_up (ops : List LogOp) (h : ∀ op ∈ ops, dirOK op) :
    (runLogOps ops).get_stats.total_messages =
      (runLogOps ops).get_stats.downstream_count +
        (runLogOps ops).get_stats.upstream_count := by
  have key : ∀ (l : List LogOp) (log : ProtobufMessageLog), (∀ op ∈ l, dirOK op) →
      twoDirCounts log → twoDirCounts (l.foldl applyLogOp log) := by
    intro l
    induction l with
    | nil => intro log _ hl; exact hl
    | cons op t ih =>
      intro log hops hl
      rw [List.foldl_cons]
      refine ih _ (fun o ho => hops o (List.mem_cons_of_mem _ ho)) ?_
      have hop := hops op (List.mem_cons_self _ _)
      obtain ⟨a, b, hc⟩ := hl
      cases op with
      | clearOp => exact ⟨0, 0, rfl⟩
      | recOp d s dec =>
        rcases hop with hd | hd
        · subst hd
          exact ⟨a + 1, b,
            by simp [applyLogOp, ProtobufMessageLog.record, hc, pySet, pyGetD, pyGet]⟩
        · subst hd
          exact ⟨a, b + 1,
            by simp [applyLogOp, ProtobufMessageLog.record, hc, pySet, pyGetD, pyGet]⟩
  obtain ⟨a, b, hc⟩ := key ops ProtobufMessageLog.init h ⟨0, 0, rfl⟩
  simp only [runLogOps]
  simp [ProtobufMessageLog.get_stats, hc, sumValues, pyGetD, pyGet]

/-- C3 witness: the amended invariant holds for a concrete in-contract call
sequence. -/
theorem claim_C3_witness :
    (runLogOps [LogOp.recOp "downstream" 3 sampleDecoded]).get_stats.total_messages =
      (runLogOps [LogOp.recOp "downstream" 3 sampleDecoded]).get_stats.downstream_count +
        (runLogOps [LogOp.recOp "downstream" 3 sampleDecoded]).get_stats.upstream_count :=
  claim_C3_total_eq_down_add_up [LogOp.recOp "downstream" 3 sampleDecoded]
    (by
      intro op hop
      rw [List.mem_singleton] at hop
      subst hop
      exact Or.inl rfl)

/-- C9: after any accumulated state, `clear()` followed by `get_stats()`
yields all-zero counters, and the record log is empty. -/
theorem claim_C9_clear_resets (log : ProtobufMessageLog) :
    (log.clear).get_stats =
      { downstream_count := 0, upstream_count := 0, downstream_bytes := 0,
        upstream_bytes := 0, total_messages := 0 } ∧
    (log.clear).records = [] :=
  ⟨rfl, rfl⟩

/-- C10: a `record` call with a direction outside the two documented keys (as
the observer's `"control"` label) still appends a record and counts the
message under that extra key: the four directional stats are unchanged while
`total_messages` grows by one. -/
theorem claim_C10_extra_direction (log : ProtobufMessageLog) (dir : String) (size : Nat)
    (dec : Decoded) (h1 : dir ≠ "downstream") (h2 : dir ≠ "upstream") :
    (log.record dir size dec).records =
      log.records ++ [{ direction := dir, size := size, decoded := dec }] ∧
    pyGetD (log.record dir size dec).counts dir 0 = pyGetD log.counts dir 0 + 1 ∧
    (log.record dir size dec).get_stats.downstream_count = log.get_stats.downstream_count ∧
    (log.record dir size dec).get_stats.upstream_count = log.get_stats.upstream_count ∧
    (log.record dir size dec).get_stats.downstream_bytes = log.get_stats.downstream_bytes ∧
    (log.record dir size dec).get_stats.upstream_bytes = log.get_stats.upstream_bytes ∧
    (log.record dir size dec).get_stats.total_messages = log.get_stats.total_messages + 1 := by
  refine ⟨rfl, ?_, ?_, ?_, ?_, ?_, ?_⟩
  · simp [ProtobufMessageLog.record, pyGetD, pyGet_pySet_self]
  · simp [ProtobufMessageLog.record, ProtobufMessageLog.get_stats,
      pyGetD_pySet_ne log.counts dir "downstream" _ 0 h1.symm]
  · simp [ProtobufMessageLog.record, ProtobufMessageLog.get_stats,
      pyGetD_pySet_ne log.counts dir "upstream" _ 0 h2.symm]
  · simp [ProtobufMessageLog.record, ProtobufMessageLog.get_stats,
      pyGetD_pySet_ne log.bytes dir "downstream" _ 0 h1.symm]
  · simp [ProtobufMessageLog.record, ProtobufMessageLog.get_stats,
      pyGetD_pySet_ne log.bytes dir "upstream" _ 0 h2.symm]
  · simp [ProtobufMessageLog.record, ProtobufMessageLog.get_stats, sumValues_pySet_add]

/-- C10 witness: recording one `"control"` message on a fresh accumulator
raises `total_messages` by one while leaving both directional counts at 0. -/
theorem claim_C10_witness :
    (ProtobufMessageLog.init.record "control" 5 sampleDecoded).get_stats.total_messages =
      ProtobufMessageLog.init.get_stats.total_messages + 1 ∧
    (ProtobufMessageLog.init.record "control" 5 sampleDecoded).get_stats.downstream_count =
      ProtobufMessageLog.init.get_stats.downstream_count :=
  ⟨(claim_C10_extra_direction ProtobufMessageLog.init "control" 5 sampleDecoded
      (by decide) (by decide)).2.2.2.2.2.2,
   (claim_C10_extra_direction ProtobufMessageLog.init "control" 5 sampleDecoded
      (by decide) (by decide)).2.2.1⟩

/-! ## Capture policy (`observability_config.py`) -/

/-- The concrete frame class of an event, covering the classes named by the
source module plus a catch-all for every other pipecat frame class (carrying
its class name). -/
inductive FrameKind where
  | userStartedSpeaking
  | userStoppedSpeaking
  | botStartedSpeaking
  | botStoppedSpeaking
  | transcriptionFrame
  | interimTranscriptionFrame
  | llmTextFrame
  | textFrame
  | inputAudioRawFrame
  | outputAudioRawFrame
  | ttsStartedFrame
  | ttsStoppedFrame
  | llmFullResponseStartFrame
  | llmFullResponseEndFrame
  | startFrame
  | endFrame
  | cancelFrame
  | outputTransportMessageFrame
  | otherKind (name : String)
deriving DecidableEq

/-- Python `type(frame).__name__`. -/
def frameTypeName : FrameKind → String
  | FrameKind.userStartedSpeaking => "UserStartedSpeakingFrame"
  | FrameKind.userStoppedSpeaking => "UserStoppedSpeakingFrame"
  | FrameKind.botStartedSpeaking => "BotStartedSpeakingFrame"
  | FrameKind.botStoppedSpeaking => "BotStoppedSpeakingFrame"
  | FrameKind.transcriptionFrame => "TranscriptionFrame"
  | FrameKind.interimTranscriptionFrame => "InterimTranscriptionFrame"
  | FrameKind.llmTextFrame => "LLMTextFrame"
  | FrameKind.textFrame => "TextFrame"
  | FrameKind.inputAudioRawFrame => "InputAudioRawFrame"
  | FrameKind.outputAudioRawFrame => "OutputAudioRawFrame"
  | FrameKind.ttsStartedFrame => "TTSStartedFrame"
  | FrameKind.ttsStoppedFrame => "TTSStoppedFrame"
  | FrameKind.llmFullResponseStartFrame => "LLMFullResponseStartFrame"
  | FrameKind.llmFullResponseEndFrame => "LLMFullResponseEndFrame"
  | FrameKind.startFrame => "StartFrame"
  | FrameKind.endFrame => "EndFrame"
  | FrameKind.cancelFrame => "CancelFrame"
  | FrameKind.outputTransportMessageFrame => "OutputTransportMessageFrame"
  | FrameKind.otherKind n => n

/-- `isinstance(frame, _AUDIO_FRAMES)`: membership in the audio-gated classes
`(InputAudioRawFrame, OutputAudioRawFrame)`. -/
def isAudioClass : FrameKind → Bool
  | FrameKind.inputAudioRawFrame => true
  | FrameKind.outputAudioRawFrame => true
  | _ => false

/-- `isinstance(frame, _TEXT_FRAMES)`: membership in the text-gated classes
`(TextFrame, TranscriptionFrame, InterimTranscriptionFrame, LLMTextFrame)`
(in pipecat the latter three subclass `TextFrame`). -/
def isTextClass : FrameKind → Bool
  | FrameKind.textFrame => true
  | FrameKind.transcriptionFrame => true
  | FrameKind.interimTranscriptionFrame => true
  | FrameKind.llmTextFrame => true
  | _ => false

/-- A dict attribute value that may or may not be a Python dict, as tested by
`isinstance(frame.message, dict)`. -/
inductive MsgAttr where
  | dictVal (d : List (String × JsonVal))
  | nonDict

/-- An observed pipeline event.  `kind` is its concrete class; the remaining
fields model the optional attributes the observer inspects (`none` meaning the
attribute is absent, or `None`/falsy where the source treats those alike). -/
structure Frame where
  kind : FrameKind
  text : Option String := none
  audio : Option (List Nat) := none
  sample_rate : Nat := 0
  message : Option MsgAttr := none

/-- `ObservabilityConfig` with its source defaults. -/
structure ObservabilityConfig where
  enabled : Bool := true
  enable_binary_logging : Bool := true
  enable_audio_capture : Bool := false
  enable_text_capture : Bool := true
  enable_timing_metrics : Bool := true
  truncate_text_at : Nat := 80

/-- `ObservabilityConfig.should_capture_frame(frame)`. -/
def ObservabilityConfig.should_capture_frame (c : ObservabilityConfig) (frame : Frame) : Bool :=
  if !c.enabled then false
  else if isAudioClass frame.kind && !c.enable_audio_capture then false
  else if isTextClass frame.kind && !c.enable_text_capture then false
  else true

/-- The capture decision as the specification words it: enabled, and not an
audio-class event with audio capture off, and not a text-class event with text
capture off. -/
def shouldCaptureSpec (c : ObservabilityConfig) (frame : Frame) : Bool :=
  c.enabled && (!(isAudioClass frame.kind) || c.enable_audio_capture) &&
    (!(isTextClass frame.kind) || c.enable_text_capture)

/-- C6: `should_capture_frame` decides exactly the cascade the specification
describes (globally disabled, then the audio gate, then the text gate,
otherwise capture), and when `enabled` is false no event is captured
regardless of the other flags. -/
theorem claim_C6_should_capture (c : ObservabilityConfig) (frame : Frame) :
    c.should_capture_frame frame = shouldCaptureSpec c frame ∧
    (c.enabled = false → c.should_capture_frame frame = false) := by
  constructor
  · unfold ObservabilityConfig.should_capture_frame shouldCaptureSpec
    cases he : c.enabled <;> cases ha : isAudioClass frame.kind <;>
      cases ht : isTextClass frame.kind <;> cases hac : c.enable_audio_capture <;>
      cases htc : c.enable_text_capture <;> simp [he, ha, ht, hac, htc]
  · intro h
    unfold ObservabilityConfig.should_capture_frame
    simp [h]

/-- C6 witness: with `enabled := false` (and text capture on), a text frame is
still rejected. -/
theorem claim_C6_witness :
    ObservabilityConfig.should_capture_frame { enabled := false }
      { kind := FrameKind.textFrame } = false :=
  (claim_C6_should_capture { enabled := false } { kind := FrameKind.textFrame }).2 rfl

/-! ## Frame observer (`pipeline_observer.py`) -/

/-- Python `s.replace(pat, rep)` on character lists, replacing non-overlapping
occurrences left to right.  `fuel` bounds the recursion; each step consumes at
least one character of `s`, so `s.length` fuel is enough. -/
def replaceFuel : Nat → List Char → List Char → List Char → List Char
  | 0, s, _, _ => s
  | Nat.succ fuel, s, pat, rep =>
    match s with
    | [] => []
    | c :: rest =>
      if pat ≠ [] ∧ s.take pat.length = pat then
        rep ++ replaceFuel fuel (s.drop pat.length) pat rep
      else
        c :: replaceFuel fuel rest pat rep

/-- Python `str.replace` (for the non-empty patterns the source uses). -/
def pyReplace (s pat rep : String) : String :=
  String.mk (replaceFuel s.data.length s.data pat.data rep.data)

/-- `PipelineObserver._format_processor_name(name)`: the fixed rewrite chain
that strips noisy suffixes and shortens known stage names. -/
def format_processor_name (name : String) : String :=
  let name := pyReplace name "Service#0" ""
  let name := pyReplace name "Transport#0" ""
  let name := pyReplace name "Processor#0" ""
  let name := pyReplace name "Aggregator#0" ""
  let name := pyReplace name "#0" ""
  let name := pyReplace name "FastAPIWebsocketInput" "WS-In"
  let name := pyReplace name "FastAPIWebsocketOutput" "WS-Out"
  let name := pyReplace name "Pipeline#0::" ""
  let name := pyReplace name "PipelineTask#0::" "Task:"
  let name := pyReplace name "Deepgram" "DG"
  let name := pyReplace name "OpenAIAgent" "Agent"
  let name := pyReplace name "LLMUser" "User"
  let name := pyReplace name "LLMAssistant" "Asst"
  name

/-- `_get_tag(frame)`: `_FRAME_TAGS.get(type(frame), type(frame).__name__[:10])`. -/
def get_tag (k : FrameKind) : String :=
  match k with
  | FrameKind.userStartedSpeaking => "USR-START"
  | FrameKind.userStoppedSpeaking => "USR-STOP"
  | FrameKind.botStartedSpeaking => "BOT-START"
  | FrameKind.botStoppedSpeaking => "BOT-STOP"
  | FrameKind.transcriptionFrame => "STT"
  | FrameKind.interimTranscriptionFrame => "STT-PART"
  | FrameKind.llmTextFrame => "LLM"
  | FrameKind.textFrame => "TEXT"
  | FrameKind.inputAudioRawFrame => "AUDIO-IN"
  | FrameKind.outputAudioRawFrame => "AUDIO-OUT"
  | FrameKind.ttsStartedFrame => "TTS-START"
  | FrameKind.ttsStoppedFrame => "TTS-STOP"
  | FrameKind.llmFullResponseStartFrame => "LLM-START"
  | FrameKind.llmFullResponseEndFrame => "LLM-END"
  | FrameKind.startFrame => "START"
  | FrameKind.endFrame => "END"
  | FrameKind.cancelFrame => "CANCEL"
  | FrameKind.outputTransportMessageFrame => "MSG"
  | FrameKind.otherKind n => n.take 10

/-- A pipeline processor as the observer sees it: only its `name` matters. -/
structure Processor where
  name : String

/-- The direction of a pushed frame.  pipecat's `FrameDirection` enum has
`DOWNSTREAM` and `UPSTREAM`; `OTHER` models any value matching neither
comparison, for which the source's `else` branch produces the `control`
label. -/
inductive FrameDirection where
  | DOWNSTREAM
  | UPSTREAM
  | OTHER

/-- The `FramePushed` event handed to `on_push_frame` by the host dispatcher. -/
structure FramePushed where
  frame : Frame
  direction : FrameDirection
  source : Option Processor := none
  destination : Option Processor := none

/-- The external world of the observer.  Fallible calls return `Except`:
`jsonDumps` models `json.dumps(..., separators=(",", ":"))` (raises
`TypeError`/`ValueError` on unserializable or circular input), `logDebug`
models `logger.opt(ansi=True).debug(line)` (loguru parses the line for color
markup and raises `ValueError` on markup-like content embedded in it),
`logTrace` the trace emission inside the background task, `serialize` the
external frame serializer (`None` result means a non-serializable frame),
`parseFromString` and `jsonLoads` as in the decoder.  The `fmt*` functions
model Python float f-string formatting, which never raises. -/
structure Env where
  jsonDumps : List (String × JsonVal) → Except PyErr String
  fmtAudioSummary : Nat → Nat → String
  fmtLatency : ℚ → String
  fmtLine : ℚ → String → String → String → String → String → String
  logDebug : String → Except PyErr Unit
  logTrace : Decoded → Except PyErr Unit
  serialize : Frame → Except PyErr (Option (List Nat))
  parseFromString : List Nat → Except PyErr FrameProto
  jsonLoads : String → Except PyErr JsonVal

/-- The structured-message arm of `_extract_content`: if the frame has a dict
`message` attribute, render it compactly with `json.dumps` (whose
`TypeError`/`ValueError` the source catches, falling through to `return
None`) and truncate like text; otherwise no content. -/
def extractContentMsg (env : Env) (config : ObservabilityConfig) (frame : Frame) :
    Except PyErr (Option String) :=
  match frame.message with
  | some (MsgAttr.dictVal d) =>
    match env.jsonDumps d with
    | Except.ok compact =>
      let compact := if compact.length > config.truncate_text_at
        then compact.take config.truncate_text_at ++ "..." else compact
      Except.ok (some compact)
    | Except.error e =>
      if e = PyErr.typeError ∨ e = PyErr.valueError then Except.ok none
      else Except.error e
  | _ => Except.ok none

/-- The audio arm of `_extract_content`: an audio-class frame with a non-`None`
`audio` attribute is summarized as size and sample rate; otherwise fall
through to the structured-message arm. -/
def extractContentAudio (env : Env) (config : ObservabilityConfig) (frame : Frame) :
    Except PyErr (Option String) :=
  if isAudioClass frame.kind then
    match frame.audio with
    | some a => Except.ok (some (env.fmtAudioSummary a.length frame.sample_rate))
    | none => extractContentMsg env config frame
  else extractContentMsg env config frame

/-- `PipelineObserver._extract_content(frame)`: a truthy `text` attribute is
truncated to `truncate_text_at` characters with an ellipsis appended when
truncated, and wrapped in double quotes; otherwise the audio and
structured-message arms are tried in turn. -/
def extract_content (env : Env) (config : ObservabilityConfig) (frame : Frame) :
    Except PyErr (Option String) :=
  match frame.text with
  | some t =>
    if t ≠ "" then
      let text := if t.length > config.truncate_text_at
        then t.take config.truncate_text_at ++ "..." else t
      Except.ok (some ("\"" ++ text ++ "\""))
    else extractContentAudio env config frame
  | none => extractContentAudio env config frame

/-- The observer's mutable per-session statistics. -/
structure ObserverState where
  last_frame_time : Option ℚ := none
  frame_counts : List (String × Nat) := []
  latencies : List (String × List ℚ) := []
  session_start : ℚ := 0

/-- A freshly constructed observer's statistics (`session_start` is the
construction time). -/
def initObserver (now : ℚ) : ObserverState :=
  { session_start := now }

/-- A scheduled background task: the arguments `on_push_frame` passes to
`_background_serialize_and_log` via `asyncio.create_task`. -/
structure TaskSpec where
  frame : Frame
  direction_label : String

/-- The side-effecting tail of `on_push_frame` (everything after the
statistics updates: content extraction, trace-line rendering, sink emission,
task scheduling).  None of these statements mutates the observer's
statistics, so they are modelled as producing the hook's outcome: the
scheduled task, `none` when binary logging is off, or the first uncaught
exception — the source has no handler around this code, so an error here
propagates to the caller. -/
def hookTail (env : Env) (config : ObservabilityConfig) (data : FramePushed)
    (latency_ms : Option ℚ) (elapsed : ℚ) : Except PyErr (Option TaskSpec) :=
  let frame := data.frame
  let frame_type := frameTypeName frame.kind
  let direction_label := match data.direction with
    | FrameDirection.DOWNSTREAM => "downstream"
    | FrameDirection.UPSTREAM => "upstream"
    | FrameDirection.OTHER => "control"
  let arrow := match data.direction with
    | FrameDirection.DOWNSTREAM => "<green>>></green>"
    | FrameDirection.UPSTREAM => "<blue>&lt;&lt;</blue>"
    | FrameDirection.OTHER => "<dim>--</dim>"
  let source := format_processor_name (match data.source with
    | some p => p.name
    | none => "?")
  let dest := format_processor_name (match data.destination with
    | some p => p.name
    | none => "?")
  let tag := get_tag frame.kind
  let lat_str := match latency_ms with
    | some l => if config.enable_timing_metrics then env.fmtLatency l else ""
    | none => ""
  match extract_content env config frame with
  | Except.error e => Except.error e
  | Except.ok content =>
    let line := env.fmtLine elapsed arrow tag frame_type source dest
    let line := if lat_str ≠ "" then line ++ "  " ++ lat_str else line
    let line := match content with
      | some c => line ++ "\n" ++ String.mk (List.replicate 26 ' ') ++ c
      | none => line
    match env.logDebug line with
    | Except.error e => Except.error e
    | Except.ok _ =>
      Except.ok (if config.enable_binary_logging
        then some { frame := frame, direction_label := direction_label }
        else none)

/-- `PipelineObserver.on_push_frame(data)` at wall-clock time `now`.

Returns the observer statistics after the call together with its outcome.
Following the source's statement order: return untouched if globally disabled
or the capture policy rejects the frame; otherwise compute the latency from
`_last_frame_time`, advance `_last_frame_time` to `now`, append the latency
sample when timing metrics are enabled, increment the frame-type count — and
only then run the side-effecting tail, whose uncaught exception leaves the
already-made statistics updates in place (Python mutations persist when a
later statement raises). -/
def on_push_frame (env : Env) (config : ObservabilityConfig) (st : ObserverState)
    (data : FramePushed) (now : ℚ) : ObserverState × Except PyErr (Option TaskSpec) :=
  if !config.enabled then (st, Except.ok none)
  else if !config.should_capture_frame data.frame then (st, Except.ok none)
  else
    let frame_type := frameTypeName data.frame.kind
    let latency_ms : Option ℚ := match st.last_frame_time with
      | some t => some ((now - t) * 1000)
      | none => none
    let st1 := { st with last_frame_time := some now }
    let st2 := match latency_ms with
      | some l =>
        if config.enable_timing_metrics then
          let newLats := pySet st1.latencies frame_type (pyGetD st1.latencies frame_type [] ++ [l])
          { st1 with latencies := newLats }
        else st1
      | none => st1
    let newCounts := pySet st2.frame_counts frame_type (pyGetD st2.frame_counts frame_type 0 + 1)
    let st3 := { st2 with frame_counts := newCounts }
    (st3, hookTail env config data latency_ms (now - st.session_start))

/-- The body of `_background_serialize_and_log` without its outer
`try/except`: serialize, decode, record, emit the trace line.  The result is
the accumulator as mutated so far, paired with the exception in flight if one
was raised (a `record` already executed persists even when the later trace
emission raises). -/
def bgBody (env : Env) (frame : Frame) (direction_label : String)
    (log : ProtobufMessageLog) : ProtobufMessageLog × Option PyErr :=
  match env.serialize frame with
  | Except.error e => (log, some e)
  | Except.ok none => (log, none)
  | Except.ok (some serialized) =>
    if serialized.length = 0 then (log, none)
    else
      match decode_protobuf env.parseFromString env.jsonLoads serialized with
      | Except.error e => (log, some e)
      | Except.ok decoded =>
        let log := log.record direction_label serialized.length decoded
        match env.logTrace decoded with
        | Except.error e => (log, some e)
        | Except.ok _ => (log, none)

/-- `PipelineObserver._background_serialize_and_log`: the body wrapped in
`try/except Exception: pass`, so whatever exception the body raises is
swallowed and the accumulator keeps the mutations made before it. -/
def background_serialize_and_log (env : Env) (frame : Frame) (direction_label : String)
    (log : ProtobufMessageLog) : ProtobufMessageLog :=
  (bgBody env frame direction_label log).1

/-- One entry of the `get_latency_stats` result. -/
structure LatencyStat where
  count : Nat
  min_ms : ℚ
  max_ms : ℚ
  avg_ms : ℚ

/-- Python `min` over a non-empty list (0 for the empty list, never used). -/
def listMin : List ℚ → ℚ
  | [] => 0
  | [x] => x
  | x :: y :: t => min x (listMin (y :: t))

/-- Python `max` over a non-empty list (0 for the empty list, never used). -/
def listMax : List ℚ → ℚ
  | [] => 0
  | [x] => x
  | x :: y :: t => max x (listMax (y :: t))

/-- The stats dict built from a latency dict: categories with an empty sample
list are skipped, the rest map to count, min, max and average. -/
def latencyStatsList (lats : List (String × List ℚ)) : List (String × LatencyStat) :=
  lats.filterMap (fun p =>
    if p.2 = [] then none
    else some (p.1, { count := p.2.length, min_ms := listMin p.2, max_ms := listMax p.2,
                      avg_ms := p.2.sum / (p.2.length : ℚ) }))

/-- `PipelineObserver.get_latency_stats()`. -/
def get_latency_stats (st : ObserverState) : List (String × LatencyStat) :=
  latencyStatsList st.latencies

/-- `PipelineObserver.get_frame_counts()` (a snapshot copy). -/
def get_frame_counts (st : ObserverState) : List (String × Nat) :=
  st.frame_counts

/-- `PipelineObserver.reset()`: clear the timestamp, counts and latencies,
restart the session clock, and clear the decode accumulator (task
cancellation is advisory and carries no statistics effect here). -/
def observer_reset (_st : ObserverState) (log : ProtobufMessageLog) (now : ℚ) :
    ObserverState × ProtobufMessageLog :=
  ({ last_frame_time := none, frame_counts := [], latencies := [], session_start := now },
   log.clear)

/-- An event is accepted when the observer is enabled and the capture policy
accepts its frame; `on_push_frame` mutates statistics exactly for accepted
events. -/
def acceptedEvent (config : ObservabilityConfig) (data : FramePushed) : Bool :=
  config.enabled && config.should_capture_frame data.frame

/-- Fold `on_push_frame` over a sequence of timestamped events, keeping the
statistics state. -/
def runEvents (env : Env) (config : ObservabilityConfig) (st : ObserverState)
    (evs : List (FramePushed × ℚ)) : ObserverState :=
  evs.foldl (fun s e => (on_push_frame env config s e.1 e.2).1) st

/-! ## Observer-side claims (C1, C4, C5, C7, C8) -/

/-- A benign environment: every external call succeeds. -/
def envTriv : Env :=
  { jsonDumps := fun _ => Except.ok "",
    fmtAudioSummary := fun _ _ => "",
    fmtLatency := fun _ => "ms",
    fmtLine := fun _ _ _ _ _ _ => "",
    logDebug := fun _ => Except.ok (),
    logTrace := fun _ => Except.ok (),
    serialize := fun _ => Except.ok none,
    parseFromString := parseNever,
    jsonLoads := jsonLoadsNone }

/-- An environment whose logging sink raises `ValueError`, as
`logger.opt(ansi=True).debug(line)` does when the rendered line embeds
markup-like text (the line interpolates untrusted frame text). -/
def envSinkRaises : Env :=
  { envTriv with logDebug := fun _ => Except.error PyErr.valueError }

/-- A text frame whose text looks like a loguru color tag. -/
def frameBadText : Frame :=
  { kind := FrameKind.textFrame, text := some "</red>" }

/-- `frameBadText` pushed downstream. -/
def dataBadText : FramePushed :=
  { frame := frameBadText, direction := FrameDirection.DOWNSTREAM }

/-- C1: `on_push_frame` has no exception handler around its body, so an
exception raised while emitting the trace line (here: the ANSI-parsing sink
rejecting a captured `TextFrame` whose text is `"</red>"`, under the default
configuration) propagates to the caller instead of being caught at the hook
boundary — while the statistics mutations made before the raise persist.
Only `_background_serialize_and_log` swallows its exceptions. -/
theorem claim_C1_hook_exception_escapes :
    (on_push_frame envSinkRaises {} (initObserver 0) dataBadText 1).2 =
      Except.error PyErr.valueError ∧
    pyGetD ((on_push_frame envSinkRaises {} (initObserver 0) dataBadText 1).1).frame_counts
      "TextFrame" 0 = 1 ∧
    background_serialize_and_log envSinkRaises frameBadText "downstream"
      ProtobufMessageLog.init = (bgBody envSinkRaises frameBadText "downstream"
      ProtobufMessageLog.init).1 :=
  ⟨rfl, rfl, rfl⟩

/-- The configuration of the C7 scenario: `truncate_text_at = 5`. -/
def cfgTrunc5 : ObservabilityConfig :=
  { truncate_text_at := 5 }

/-- The event of the C7 scenario: a text frame carrying `"hello world"`. -/
def frameHello : Frame :=
  { kind := FrameKind.textFrame, text := some "hello world" }

/-- C7 counterexample: with `truncate_text_at = 5` the extracted content keeps
`"hello"` (5 characters), not `"hell"` as the claim's quoted scenario says. -/
theorem claim_C7_counterexample :
    extract_content envTriv cfgTrunc5 frameHello = Except.ok (some "\"hello...\"") ∧
    ("\"hello...\"" : String) ≠ "\"hell...\"" :=
  ⟨rfl, by decide⟩

/-- C7 (amended): with `truncate_text_at = 5` and text `"hello world"`, the
extracted content is the quoted string `"hello"` plus the ellipsis marker
followed by the closing quote — exactly 5 content characters retained before
the ellipsis (the first 5 characters of the text). -/
theorem claim_C7_truncation (env : Env) :
    extract_content env cfgTrunc5 frameHello = Except.ok (some "\"hello...\"") ∧
    "hello world".take 5 = "hello" ∧ ("hello" : String).length = 5 :=
  ⟨rfl, rfl, rfl⟩

/-- For an accepted event, the hook updates the frame-type count exactly as
`self._frame_counts[frame_type] = self._frame_counts.get(frame_type, 0) + 1`
does, whatever the latency branch did. -/
theorem on_push_frame_fst_counts (env : Env) (config : ObservabilityConfig)
    (st : ObserverState) (data : FramePushed) (now : ℚ)
    (h : acceptedEvent config data = true) :
    ((on_push_frame env config st data now).1).frame_counts =
      pySet st.frame_counts (frameTypeName data.frame.kind)
        (pyGetD st.frame_counts (frameTypeName data.frame.kind) 0 + 1) := by
  rw [acceptedEvent, Bool.and_eq_true] at h
  obtain ⟨he, hs⟩ := h
  obtain ⟨lft, fc, lats, ss⟩ := st
  cases lft with
  | none => simp [on_push_frame, he, hs]
  | some t => cases htm : config.enable_timing_metrics <;> simp [on_push_frame, he, hs, htm]

/-- For an accepted event, the hook always advances `_last_frame_time` to the
current time, whether or not timing metrics are enabled. -/
theorem on_push_frame_fst_last (env : Env) (config : ObservabilityConfig)
    (st : ObserverState) (data : FramePushed) (now : ℚ)
    (h : acceptedEvent config data = true) :
    ((on_push_frame env config st data now).1).last_frame_time = some now := by
  rw [acceptedEvent, Bool.and_eq_true] at h
  obtain ⟨he, hs⟩ := h
  obtain ⟨lft, fc, lats, ss⟩ := st
  cases lft with
  | none => simp [on_push_frame, he, hs]
  | some t => cases htm : config.enable_timing_metrics <;> simp [on_push_frame, he, hs, htm]

/-- For an accepted event with no previous accepted-event timestamp, no
latency sample is appended. -/
theorem on_push_frame_fst_lats_none (env : Env) (config : ObservabilityConfig)
    (st : ObserverState) (data : FramePushed) (now : ℚ)
    (h : acceptedEvent config data = true) (hl : st.last_frame_time = none) :
    ((on_push_frame env config st data now).1).latencies = st.latencies := by
  rw [acceptedEvent, Bool.and_eq_true] at h
  obtain ⟨he, hs⟩ := h
  obtain ⟨lft, fc, lats, ss⟩ := st
  cases hl
  simp [on_push_frame, he, hs]

/-- For an accepted event with a previous timestamp and timing metrics
enabled, the latency sample `(now - previous) * 1000` is appended to the
event's own frame-type sequence. -/
theorem on_push_frame_fst_lats_some (env : Env) (config : ObservabilityConfig)
    (st : ObserverState) (data : FramePushed) (now t : ℚ)
    (h : acceptedEvent config data = true) (hl : st.last_frame_time = some t)
    (htm : config.enable_timing_metrics = true) :
    ((on_push_frame env config st data now).1).latencies =
      pySet st.latencies (frameTypeName data.frame.kind)
        (pyGetD st.latencies (frameTypeName data.frame.kind) [] ++ [(now - t) * 1000]) := by
  rw [acceptedEvent, Bool.and_eq_true] at h
  obtain ⟨he, hs⟩ := h
  obtain ⟨lft, fc, lats, ss⟩ := st
  cases hl
  simp [on_push_frame, he, hs, htm]

/-- For an accepted event with a previous timestamp but timing metrics
disabled, no latency sample is appended (though `_last_frame_time` still
advances). -/
theorem on_push_frame_fst_lats_off (env : Env) (config : ObservabilityConfig)
    (st : ObserverState) (data : FramePushed) (now t : ℚ)
    (h : acceptedEvent config data = true) (hl : st.last_frame_time = some t)
    (htm : config.enable_timing_metrics = false) :
    ((on_push_frame env config st data now).1).latencies = st.latencies := by
  rw [acceptedEvent, Bool.and_eq_true] at h
  obtain ⟨he, hs⟩ := h
  obtain ⟨lft, fc, lats, ss⟩ := st
  cases hl
  simp [on_push_frame, he, hs, htm]

/-- C4: an event the capture policy rejects leaves the hook with no state
change and no scheduled task, and over any event sequence from a fresh
session, `sum(frame_counts.values())` equals the number of accepted events. -/
theorem claim_C4_rejected_invisible (env : Env) (config : ObservabilityConfig) :
    (∀ (st : ObserverState) (data : FramePushed) (now : ℚ),
      acceptedEvent config data = false →
      on_push_frame env config st data now = (st, Except.ok none)) ∧
    (∀ (t0 : ℚ) (evs : List (FramePushed × ℚ)),
      sumValues (runEvents env config (initObserver t0) evs).frame_counts =
        (evs.filter (fun e => acceptedEvent config e.1)).length) := by
  have hrej : ∀ (st : ObserverState) (data : FramePushed) (now : ℚ),
      acceptedEvent config data = false →
      on_push_frame env config st data now = (st, Except.ok none) := by
    intro st data now h
    by_cases he : config.enabled = true
    · have hs : config.should_capture_frame data.frame = false := by
        simpa [acceptedEvent, he] using h
      simp [on_push_frame, he, hs]
    · rw [Bool.not_eq_true] at he
      simp [on_push_frame, he]
  have hstep : ∀ (st : ObserverState) (data : FramePushed) (now : ℚ),
      acceptedEvent config data = true →
      sumValues ((on_push_frame env config st data now).1).frame_counts =
        sumValues st.frame_counts + 1 := by
    intro st data now h
    rw [on_push_frame_fst_counts env config st data now h, sumValues_pySet_add]
  refine ⟨hrej, ?_⟩
  intro t0 evs
  have main : ∀ (l : List (FramePushed × ℚ)) (st : ObserverState),
      sumValues (runEvents env config st l).frame_counts =
        sumValues st.frame_counts + (l.filter (fun e => acceptedEvent config e.1)).length := by
    intro l
    induction l with
    | nil => intro st; simp [runEvents]
    | cons e tl ih =>
      intro st
      simp only [runEvents, List.foldl_cons] at ih ⊢
      cases hacc : acceptedEvent config e.1 with
      | false =>
        have h1 : (on_push_frame env config st e.1 e.2).1 = st :=
          congrArg Prod.fst (hrej st e.1 e.2 hacc)
        rw [h1, ih st]
        simp [List.filter_cons, hacc]
      | true =>
        rw [ih ((on_push_frame env config st e.1 e.2).1), hstep st e.1 e.2 hacc]
        simp [List.filter_cons, hacc]
        omega
  rw [main evs (initObserver t0)]
  simp [initObserver, sumValues]

/-- `frameHello` pushed downstream, used as a concrete accepted event. -/
def dataHello : FramePushed :=
  { frame := frameHello, direction := FrameDirection.DOWNSTREAM }

/-- A globally disabled configuration. -/
def cfgDisabled : ObservabilityConfig :=
  { enabled := false }

/-- C4 witness: a rejected event (observer disabled) leaves the state
untouched, and a one-accepted-event run counts exactly that event. -/
theorem claim_C4_witness :
    on_push_frame envTriv cfgDisabled (initObserver 0) dataHello 1 =
      (initObserver 0, Except.ok none) ∧
    sumValues (runEvents envTriv {} (initObserver 0) [(dataHello, 1)]).frame_counts =
      (([(dataHello, 1)] : List (FramePushed × ℚ)).filter
        (fun e => acceptedEvent {} e.1)).length :=
  ⟨(claim_C4_rejected_invisible envTriv cfgDisabled).1 (initObserver 0) dataHello 1 rfl,
   (claim_C4_rejected_invisible envTriv {}).2 0 [(dataHello, 1)]⟩

/-- C5: for an accepted event, the hook advances the previous-accepted-event
timestamp to `now` regardless of the timing flag; when no previous timestamp
exists (fresh session or just after reset) no latency sample is recorded;
when one exists and timing metrics are enabled, the latency
`(now - previous) * 1000` is appended to the event's own category sequence
only, and is non-negative whenever the clock did not go backwards; when
timing metrics are disabled nothing is appended. -/
theorem claim_C5_latency (env : Env) (config : ObservabilityConfig) (st : ObserverState)
    (data : FramePushed) (now t : ℚ) (hacc : acceptedEvent config data = true) :
    ((on_push_frame env config st data now).1).last_frame_time = some now ∧
    (st.last_frame_time = none →
      ((on_push_frame env config st data now).1).latencies = st.latencies) ∧
    (st.last_frame_time = some t → config.enable_timing_metrics = true →
      pyGet ((on_push_frame env config st data now).1).latencies
          (frameTypeName data.frame.kind) =
        some (pyGetD st.latencies (frameTypeName data.frame.kind) [] ++ [(now - t) * 1000]) ∧
      (∀ c, c ≠ frameTypeName data.frame.kind →
        pyGet ((on_push_frame env config st data now).1).latencies c =
          pyGet st.latencies c) ∧
      (t ≤ now → 0 ≤ (now - t) * 1000)) ∧
    (st.last_frame_time = some t → config.enable_timing_metrics = false →
      ((on_push_frame env config st data now).1).latencies = st.latencies) ∧
    (initObserver now).last_frame_time = none ∧
    (observer_reset st ProtobufMessageLog.init now).1.last_frame_time = none := by
  refine ⟨on_push_frame_fst_last env config st data now hacc, ?_, ?_, ?_, rfl, rfl⟩
  · intro hl
    exact on_push_frame_fst_lats_none env config st data now hacc hl
  · intro hl htm
    rw [on_push_frame_fst_lats_some env config st data now t hacc hl htm]
    refine ⟨pyGet_pySet_self _ _ _, ?_, ?_⟩
    · intro c hc
      exact pyGet_pySet_ne _ _ _ _ hc
    · intro hle
      have h1 : (0 : ℚ) ≤ now - t := by linarith
      nlinarith
  · intro hl htm
    exact on_push_frame_fst_lats_off env config st data now t hacc hl htm

/-- An observer state whose previous accepted event happened at time 1. -/
def stPrev : ObserverState :=
  { last_frame_time := some 1 }

/-- C5 witness: a second accepted text event at time 2, one time unit after
the previous one, appends the sample `(2 - 1) * 1000` to the `TextFrame`
sequence and advances the timestamp. -/
theorem claim_C5_witness :
    pyGet ((on_push_frame envTriv {} stPrev dataHello 2).1).latencies "TextFrame" =
      some (pyGetD stPrev.latencies "TextFrame" [] ++ [((2 : ℚ) - 1) * 1000]) ∧
    ((on_push_frame envTriv {} stPrev dataHello 2).1).last_frame_time = some 2 :=
  ⟨((claim_C5_latency envTriv {} stPrev dataHello 2 1 rfl).2.2.1 rfl rfl).1,
   (claim_C5_latency envTriv {} stPrev dataHello 2 1 rfl).1⟩

theorem listMin_mul_le_sum (l : List ℚ) (h : l ≠ []) :
    (l.length : ℚ) * listMin l ≤ l.sum := by
  induction l with
  | nil => exact absurd rfl h
  | cons x tl ih =>
    cases tl with
    | nil => simp [listMin]
    | cons y t2 =>
      have ih2 := ih (by simp)
      simp only [List.length_cons, List.sum_cons] at ih2
      push_cast at ih2
      have h1 : min x (listMin (y :: t2)) ≤ x := min_le_left _ _
      have h2 : min x (listMin (y :: t2)) ≤ listMin (y :: t2) := min_le_right _ _
      have hn : (0 : ℚ) ≤ (t2.length : ℚ) + 1 := by positivity
      have hexp : ((t2.length : ℚ) + 1 + 1) * min x (listMin (y :: t2)) =
          ((t2.length : ℚ) + 1) * min x (listMin (y :: t2)) + min x (listMin (y :: t2)) := by
        ring
      simp only [listMin, List.sum_cons, List.length_cons]
      push_cast
      linarith [mul_le_mul_of_nonneg_left h2 hn, hexp, ih2, h1]

theorem sum_le_listMax_mul (l : List ℚ) (h : l ≠ []) :
    l.sum ≤ (l.length : ℚ) * listMax l := by
  induction l with
  | nil => exact absurd rfl h
  | cons x tl ih =>
    cases tl with
    | nil => simp [listMax]
    | cons y t2 =>
      have ih2 := ih (by simp)
      simp only [List.length_cons, List.sum_cons] at ih2
      push_cast at ih2
      have h1 : x ≤ max x (listMax (y :: t2)) := le_max_left _ _
      have h2 : listMax (y :: t2) ≤ max x (listMax (y :: t2)) := le_max_right _ _
      have hn : (0 : ℚ) ≤ (t2.length : ℚ) + 1 := by positivity
      have hexp : ((t2.length : ℚ) + 1 + 1) * max x (listMax (y :: t2)) =
          ((t2.length : ℚ) + 1) * max x (listMax (y :: t2)) + max x (listMax (y :: t2)) := by
        ring
      simp only [listMax, List.sum_cons, List.length_cons]
      push_cast
      linarith [mul_le_mul_of_nonneg_left h2 hn, hexp, ih2, h1]

theorem listMin_le_avg (l : List ℚ) (h : l ≠ []) :
    listMin l ≤ l.sum / (l.length : ℚ) := by
  have hn : (0 : ℚ) < (l.length : ℚ) := by
    have := List.length_pos.mpr h
    exact_mod_cast this
  rw [le_div_iff₀ hn]
  have := listMin_mul_le_sum l h
  linarith [this, mul_comm (listMin l) ((l.length : ℚ))]

theorem avg_le_listMax (l : List ℚ) (h : l ≠ []) :
    l.sum / (l.length : ℚ) ≤ listMax l := by
  have hn : (0 : ℚ) < (l.length : ℚ) := by
    have := List.length_pos.mpr h
    exact_mod_cast this
  rw [div_le_iff₀ hn]
  have := sum_le_listMax_mul l h
  linarith [this, mul_comm (listMax l) ((l.length : ℚ))]

/-- Keys absent from the latency dict are absent from the stats dict. -/
theorem pyGet_latencyStats_not_mem (lats : List (String × List ℚ)) (cat : String)
    (h : cat ∉ lats.map Prod.fst) : pyGet (latencyStatsList lats) cat = none := by
  induction lats with
  | nil => rfl
  | cons p tl ih =>
    obtain ⟨k, xs⟩ := p
    simp only [List.map_cons, List.mem_cons, not_or] at h
    obtain ⟨h1, h2⟩ := h
    have hk : ¬k = cat := fun hh => h1 hh.symm
    by_cases hx : xs = []
    · simpa [latencyStatsList, List.filterMap_cons, hx] using ih h2
    · simp only [latencyStatsList, List.filterMap_cons, hx, if_neg hx] at ih ⊢
      simpa [pyGet, hk] using ih h2

/-- Looking a category up in the stats dict: empty sample lists are skipped,
non-empty ones map to their count/min/max/average entry (assuming the latency
dict has no duplicate keys, as a Python dict cannot). -/
theorem pyGet_latencyStats (lats : List (String × List ℚ)) (cat : String)
    (hnd : (lats.map Prod.fst).Nodup) :
    (pyGet lats cat = none → pyGet (latencyStatsList lats) cat = none) ∧
    (pyGet lats cat = some [] → pyGet (latencyStatsList lats) cat = none) ∧
    (∀ l, pyGet lats cat = some l → l ≠ [] →
      pyGet (latencyStatsList lats) cat =
        some { count := l.length, min_ms := listMin l, max_ms := listMax l,
               avg_ms := l.sum / (l.length : ℚ) }) := by
  induction lats with
  | nil =>
    refine ⟨fun _ => rfl, fun h => ?_, fun l hl => ?_⟩
    · simp [pyGet] at h
    · simp [pyGet] at hl
  | cons p tl ih =>
    obtain ⟨k, xs⟩ := p
    simp only [List.map_cons, List.nodup_cons] at hnd
    obtain ⟨hk, hnd2⟩ := hnd
    have iht := ih hnd2
    by_cases hkc : k = cat
    · subst hkc
      refine ⟨fun h => ?_, fun h => ?_, fun l hl hlne => ?_⟩
      · simp [pyGet] at h
      · have hxs : xs = [] := by simpa [pyGet] using h
        subst hxs
        simp only [latencyStatsList, List.filterMap_cons, if_pos rfl]
        exact pyGet_latencyStats_not_mem tl k hk
      · have hxl : xs = l := by simpa [pyGet] using hl
        subst hxl
        simp [latencyStatsList, List.filterMap_cons, hlne, pyGet]
    · have hk2 : ¬k = cat := hkc
      have hget : pyGet ((k, xs) :: tl) cat = pyGet tl cat := by simp [pyGet, hk2]
      refine ⟨fun h => ?_, fun h => ?_, fun l hl hlne => ?_⟩
      · rw [hget] at h
        by_cases hx : xs = []
        · simpa [latencyStatsList, List.filterMap_cons, hx] using iht.1 h
        · simp only [latencyStatsList, List.filterMap_cons, if_neg hx] at iht ⊢
          simpa [pyGet, hk2] using iht.1 h
      · rw [hget] at h
        by_cases hx : xs = []
        · simpa [latencyStatsList, List.filterMap_cons, hx] using iht.2.1 h
        · simp only [latencyStatsList, List.filterMap_cons, if_neg hx] at iht ⊢
          simpa [pyGet, hk2] using iht.2.1 h
      · rw [hget] at hl
        by_cases hx : xs = []
        · simpa [latencyStatsList, List.filterMap_cons, hx] using iht.2.2 l hl hlne
        · simp only [latencyStatsList, List.filterMap_cons, if_neg hx] at iht ⊢
          simpa [pyGet, hk2] using iht.2.2 l hl hlne

/-- C8: `get_latency_stats` omits every category whose latency sequence is
empty (or absent), and for every category with at least one sample the entry
has `count` equal to the sequence length and satisfies
`min_ms ≤ avg_ms ≤ max_ms`. -/
theorem claim_C8_latency_stats (st : ObserverState) (cat : String)
    (hnd : (st.latencies.map Prod.fst).Nodup) :
    (pyGet st.latencies cat = none → pyGet (get_latency_stats st) cat = none) ∧
    (pyGet st.latencies cat = some [] → pyGet (get_latency_stats st) cat = none) ∧
    (∀ l, pyGet st.latencies cat = some l → l ≠ [] →
      pyGet (get_latency_stats st) cat =
        some { count := l.length, min_ms := listMin l, max_ms := listMax l,
               avg_ms := l.sum / (l.length : ℚ) } ∧
      listMin l ≤ l.sum / (l.length : ℚ) ∧ l.sum / (l.length : ℚ) ≤ listMax l) := by
  have h := pyGet_latencyStats st.latencies cat hnd
  refine ⟨h.1, h.2.1, fun l hl hlne => ?_⟩
  exact ⟨h.2.2 l hl hlne, listMin_le_avg l hlne, avg_le_listMax l hlne⟩

/-- An observer state with two latency samples for `TextFrame`. -/
def stLatW : ObserverState :=
  { latencies := [("TextFrame", [2, 4])] }

/-- C8 witness: for the two samples 2 and 4, the entry has count 2 and its
min/average/max are correctly ordered. -/
theorem claim_C8_witness :
    pyGet (get_latency_stats stLatW) "TextFrame" =
      some { count := ([2, 4] : List ℚ).length, min_ms := listMin [2, 4],
             max_ms := listMax [2, 4],
             avg_ms := ([2, 4] : List ℚ).sum / (([2, 4] : List ℚ).length : ℚ) } ∧
    listMin [(2 : ℚ), 4] ≤ ([2, 4] : List ℚ).sum / (([2, 4] : List ℚ).length : ℚ) ∧
    ([2, 4] : List ℚ).sum / (([2, 4] : List ℚ).length : ℚ) ≤ listMax [(2 : ℚ), 4] :=
  (claim_C8_latency_stats stLatW "TextFrame" (by simp [stLatW])).2.2 [2, 4] rfl
    (List.cons_ne_nil _ _)
